import Mathlib

/-!
Shallow embedding of the x402 payment facilitator (Express server:
`routes/orders.js`, `services/crossmint.js`, `config/index.js`).

Conventions of the embedding:

* JavaScript number arithmetic on prices is modelled by exact rationals
  (`ℚ`); the composite `+(x).toFixed(6)` is modelled as rounding half-up
  to 6 decimal places (`roundTo6`).  On every concrete input appearing in
  the development the IEEE-754 double computation of the source and the
  rational model agree.
* Fallible external calls (Crossmint REST API) are modelled by an
  environment record `Env` holding the result of each call
  (`Except String _` where a thrown `Error` is `.error msg`).
* The Express handler `router.post('/')` is modelled by `handler`, a pure
  function from configuration, request and environment to the HTTP
  response together with the trace of external side-effecting calls made
  (`List Call`).  The outer `try/catch` of the handler, which converts
  any thrown error into a 500 response, is modelled by the `.error`
  branches returning `resp500`.
* JSON fields that may be absent are `Option`; `undefined`/falsy checks
  of the source become `Option` matches.  Request bodies are modelled
  after Joi validation has succeeded (the claims under study all concern
  payment processing, which happens only for schema-valid bodies).
-/

/-- Mathematical floor of a rational, written on the normalised
numerator/denominator so that it evaluates by `norm_num`/`decide`
(models JavaScript `Math.floor` on the nonnegative amounts in play). -/
def qfloor (q : ℚ) : ℤ := Int.fdiv q.num q.den

theorem qfloor_eq_floor (q : ℚ) : qfloor q = ⌊q⌋ := by
  rw [Rat.floor_def, qfloor, Int.fdiv_eq_ediv _ (by positivity)]

/-- Model of `+(x).toFixed(6)`: round half-up to 6 decimal places. -/
def roundTo6 (q : ℚ) : ℚ := (qfloor (q * 1000000 + 1/2) : ℚ) / 1000000

/-- `parseFloat(crossmintResponse.quote?.totalPrice?.amount || '1.80')`
(routes/orders.js lines 147 and 200): the quoted amount, already parsed
to a rational, with the hard-coded default base price 1.80. -/
def baseAmountOf (quoteAmount : Option ℚ) : ℚ := quoteAmount.getD (9/5)

/-- `Math.floor(totalAmount * 1000000)` where
`totalAmount = +(baseAmount * (1 + feePercent / 100)).toFixed(6)`
(routes/orders.js lines 146-150, the 402-challenge construction). -/
def challengeAtomicUnits (quoteAmount : Option ℚ) (feePercent : ℚ) : ℤ :=
  qfloor (roundTo6 (baseAmountOf quoteAmount * (1 + feePercent / 100)) * 1000000)

/-- `amountInAtomicUnits = Math.floor(totalAmount * 1000000).toString()`
at challenge time (routes/orders.js line 150). -/
def challengeAmountString (quoteAmount : Option ℚ) (feePercent : ℚ) : String :=
  toString (challengeAtomicUnits quoteAmount feePercent)

/-- The identical recomputation during payment verification
(routes/orders.js lines 199-203). -/
def verifyAtomicUnits (quoteAmount : Option ℚ) (feePercent : ℚ) : ℤ :=
  qfloor (roundTo6 (baseAmountOf quoteAmount * (1 + feePercent / 100)) * 1000000)

/-- `amountInAtomicUnits` as recomputed at verification time
(routes/orders.js line 203). -/
def verifyAmountString (quoteAmount : Option ℚ) (feePercent : ℚ) : String :=
  toString (verifyAtomicUnits quoteAmount feePercent)

/-- Signature recovery-value normalisation of
`CrossmintService.executeTransferWithAuthorization`
(services/crossmint.js lines 304-314).  `v` is the byte parsed from the
last two hex characters of the 65-byte signature; the JavaScript `%` is
the truncated remainder `Int.tmod`. -/
def normalizeV (v : ℤ) : ℤ :=
  if 27 ≤ v then v
  else if v = 0 ∨ v = 1 then v + 27
  else Int.tmod (v - 35) 2 + 27

/-- Idempotency key of the fund-collection submission:
`'x-idempotency-key': orderId + "-inbound"`
(services/crossmint.js line 370). -/
def inboundIdempotencyKey (orderId : String) : String := orderId ++ "-inbound"

/-- Idempotency key of the fulfillment-dispatch submission:
`'x-idempotency-key': orderId` (services/crossmint.js line 242). -/
def outboundIdempotencyKey (orderId : String) : String := orderId

/-- JavaScript `toLowerCase()`, written structurally on the character
list (the ASCII identifiers in play lower-case identically). -/
def strToLower (s : String) : String := ⟨s.data.map Char.toLower⟩

/-- The USDC contract table of `config.x402.getContractAddress`
(config/index.js lines 478-493). -/
def usdcContracts : List (String × String) :=
  [("ethereum-sepolia", "0x1c7D4B196Cb0C7B01d743Fbc6116a902379C7238"),
   ("base-sepolia", "0x036cbd53842c5426634e7929541ec2318f3dcf7e"),
   ("polygon-mumbai", "0xe6b8a5CF854791412c1f6EFC7CAf629f5Df1c747"),
   ("arbitrum-sepolia", "0x75faf114eafb1BDbe2F0316DF893fd58CE46AA4d"),
   ("ethereum", "0xA0b86991c6218b36c1d19D4a2e9Eb0cE3606eB48"),
   ("polygon", "0x3c499c542cEF5E3811e1192ce70d8cC03d5c3359"),
   ("base", "0x833589fCD6eDb6E08f4c7C32D4f71b54bdA02913"),
   ("arbitrum", "0xaf88d065e77c8cC2239327C5EDb3A432268e5831")]

/-- `config.x402.getContractAddress(chain, currency)`
(config/index.js lines 477-506).  The table only has a `'usdc'` entry;
an unknown currency or chain throws, modelled by `none`. -/
def getContractAddress (chain currency : String) : Option String :=
  if strToLower currency = "usdc" then usdcContracts.lookup (strToLower chain) else none

/-- The `authorization` object inside `payload` of a decoded X-PAYMENT
header (EIP-3009 fields; `from` and `to` are rendered `fromAddr` and
`toAddr`). -/
structure RawAuthorization where
  fromAddr : String
  toAddr : String
  value : String
  validAfter : String
  validBefore : String
  nonce : String
deriving DecidableEq, Repr

/-- The `payload` sub-object of a PaymentPayload; either field may be
absent in malformed input. -/
structure RawInner where
  authorization : Option RawAuthorization
  signature : Option String
deriving DecidableEq, Repr

/-- A parsed X-PAYMENT JSON document before validation
(`decodePaymentHeader`, routes/orders.js lines 16-38).  Fields the JSON
may omit are `Option`. -/
structure RawPayload where
  x402Version : Option Nat
  scheme : Option String
  network : Option String
  payload : Option RawInner
  extraOrderId : Option String
deriving DecidableEq, Repr

/-- A PaymentPayload that survived `decodePaymentHeader`: authorization
and signature are known to be present. -/
structure DecodedPayment where
  network : Option String
  authorization : RawAuthorization
  signature : String
  extraOrderId : Option String
deriving DecidableEq, Repr

/-- `decodePaymentHeader` (routes/orders.js lines 16-38).  The argument
`none` models a header whose base64/JSON decoding throws; every failure
is a thrown `Error`, i.e. `.error`. -/
def decodePaymentHeader (h : Option RawPayload) : Except String DecodedPayment :=
  match h with
  | none => .error "Invalid X-PAYMENT header format: JSON parse error"
  | some raw =>
    if raw.x402Version ≠ some 1 then
      .error "Invalid X-PAYMENT header format: Invalid x402Version - must be 1"
    else if raw.scheme ≠ some "exact" then
      .error "Invalid X-PAYMENT header format: Invalid scheme - must be exact"
    else
      match raw.payload with
      | none =>
        .error "Invalid X-PAYMENT header format: Invalid PaymentPayload - missing authorization or signature"
      | some inner =>
        match inner.authorization, inner.signature with
        | some auth, some sig =>
          .ok { network := raw.network, authorization := auth,
                signature := sig, extraOrderId := raw.extraOrderId }
        | _, _ =>
          .error "Invalid X-PAYMENT header format: Invalid PaymentPayload - missing authorization or signature"

/-- `quote.totalPrice` of a Crossmint order response; the `amount`
string is modelled already parsed to `ℚ` (absent field is `none`). -/
structure Quote where
  totalPriceAmount : Option ℚ

/-- A Crossmint order response as consumed by the route:
`orderId`, `quote?.totalPrice?.amount` and
`payment?.preparation?.serializedTransaction`. -/
structure OrderResponse where
  orderId : Option String
  quote : Option Quote
  serializedTx : Option String

/-- `crossmintResponse.quote?.totalPrice?.amount` as an optional parsed
rational. -/
def quoteAmountOf (o : OrderResponse) : Option ℚ :=
  o.quote.bind Quote.totalPriceAmount

/-- The `payment` object of the request body (`{method, currency}`);
empty strings model falsy values for the `||` defaults. -/
structure PaymentField where
  method : String
  currency : String
deriving DecidableEq, Repr

/-- The request as seen by the handler: the (schema-valid) body's
optional `payment` object, and the X-PAYMENT header.  `header = none`
is an absent header; `header = some none` is a present header whose
base64/JSON decode fails; `header = some (some raw)` is a present
header decoding to `raw`. -/
structure OrderRequest where
  payment : Option PaymentField
  header : Option (Option RawPayload)

/-- The configuration slice the route reads
(config/index.js: `config.x402`, `config.crossmint`). -/
structure Config where
  supportedNetworks : List String
  supportedCurrencies : List String
  feePercent : ℚ
  walletAddress : String

/-- `config.x402.defaultNetwork`: first supported network
(config/index.js line 473). -/
def Config.defaultNetwork (cfg : Config) : String :=
  cfg.supportedNetworks.headD ""

/-- `config.x402.isSupportedNetwork` (config/index.js line 515). -/
def isSupportedNetwork (cfg : Config) (network : String) : Bool :=
  cfg.supportedNetworks.contains (strToLower network)

/-- `config.x402.isSupportedCurrency` (config/index.js line 511). -/
def isSupportedCurrency (cfg : Config) (currency : String) : Bool :=
  cfg.supportedCurrencies.contains (strToLower currency)

/-- `const chain = payment?.method || config.x402.defaultNetwork`
(routes/orders.js line 82). -/
def requestChain (cfg : Config) (req : OrderRequest) : String :=
  match req.payment with
  | some p => if p.method = "" then cfg.defaultNetwork else p.method
  | none => cfg.defaultNetwork

/-- `const currency = payment?.currency || 'usdc'`
(routes/orders.js line 83). -/
def requestCurrency (req : OrderRequest) : String :=
  match req.payment with
  | some p => if p.currency = "" then "usdc" else p.currency
  | none => "usdc"

/-- Results of the external Crossmint calls the handler may make, one
field per call site; `.error msg` models a thrown `Error(msg)`. -/
structure Env where
  createOrder : Except String (Option OrderResponse)
  fetchOrder : Except String OrderResponse
  collectOk : Bool
  dispatchResult : Except String Unit
  refetchOrder : Except String OrderResponse

/-- The side-effecting external calls the handler can make, in order.
`refund` is listed as a possible call of the service layer so that its
absence from every trace is expressible; the route never emits it. -/
inductive Call where
  | createOrder : Call
  | fetchOrder : String → Call
  | collect : String → String → Call
  | dispatch : String → Call
  | refund : String → Call
deriving DecidableEq, Repr

/-- The JSON body and status the handler sends (fields the claims
inspect; absent JSON fields are `none`). -/
structure Response where
  status : Nat
  error : Option String := none
  message : Option String := none
  maxAmountRequired : Option String := none
  asset : Option String := none
  challengeOrderId : Option String := none
  fulfillmentError : Option String := none
deriving DecidableEq, Repr

/-- 400 "Unsupported network" (routes/orders.js lines 99-104). -/
def respUnsupportedNetwork : Response :=
  { status := 400, error := some "Unsupported network" }

/-- 400 "Unsupported currency" (routes/orders.js lines 111-116). -/
def respUnsupportedCurrency : Response :=
  { status := 400, error := some "Unsupported currency" }

/-- 500 produced by the outer catch of the route
(routes/orders.js lines 352-358). -/
def resp500 (msg : String) : Response :=
  { status := 500, error := some "Internal server error", message := some msg }

/-- 400 "Missing order ID" (routes/orders.js lines 184-188). -/
def respMissingOrderId : Response :=
  { status := 400, error := some "Missing order ID",
    message := some "Payment payload must include orderId in extra field" }

/-- 404 "Order not found" (routes/orders.js lines 193-196). -/
def respNotFound : Response :=
  { status := 404, error := some "Order not found" }

/-- 400 "Payment network mismatch" (routes/orders.js lines 211-214). -/
def respNetworkMismatch : Response :=
  { status := 400, error := some "Payment network mismatch" }

/-- 400 "Payment amount mismatch" (routes/orders.js lines 227-231). -/
def respAmountMismatch (expected received : String) : Response :=
  { status := 400, error := some "Payment amount mismatch",
    message := some ("Expected payment amount: " ++ expected ++ ", received: " ++ received) }

/-- 200 sent when fund collection throws: the route returns the order
without paying Crossmint (routes/orders.js lines 256-271). -/
def respCollectFailed : Response :=
  { status := 200, message := some "Payment verification completed" }

/-- 422 sent when collection succeeded but fulfillment dispatch threw
(routes/orders.js lines 324-329). -/
def respFulfillmentFailed (errMsg : String) : Response :=
  { status := 422, error := some "Payment received but fulfillment failed",
    message := some "Your payment was received but order fulfillment failed. Please contact support.",
    fulfillmentError := some errMsg }

/-- 200 full-success body (routes/orders.js lines 295-319). -/
def respFulfilled : Response :=
  { status := 200,
    message := some "Payment received and order fulfilled successfully, check your email for confirmation" }

/-- 200 sent when the order needs no fulfillment transaction
(routes/orders.js lines 334-349). -/
def respNoFulfillment : Response :=
  { status := 200,
    message := some "Payment received successfully, check your email for confirmation" }

/-- 402 challenge (routes/orders.js lines 156-177). -/
def respChallenge (amount asset : String) (orderId : Option String) : Response :=
  { status := 402, error := some "X-PAYMENT header is required",
    maxAmountRequired := some amount, asset := some asset,
    challengeOrderId := orderId }

/-- The no-payment-header branch (routes/orders.js lines 120-178):
create a Crossmint order, compute base price + fee in atomic units,
resolve the USDC contract of the requested chain, answer 402. -/
def challengePhase (cfg : Config) (chain : String) (env : Env) :
    Response × List Call :=
  match env.createOrder with
  | .error e => (resp500 e, [Call.createOrder])
  | .ok none =>
    (resp500 "Failed to create Crossmint order for 402 response", [Call.createOrder])
  | .ok (some o) =>
    let amount := challengeAmountString (quoteAmountOf o) cfg.feePercent
    match getContractAddress chain "usdc" with
    | none => (resp500 "contract address lookup failed", [Call.createOrder])
    | some addr => (respChallenge amount addr o.orderId, [Call.createOrder])

/-- Fund collection followed by fulfillment dispatch
(routes/orders.js lines 239-350), reached only after verification
passed.  `getContractAddress` throwing inside the collection `try` is
caught by the same `catch` as a collection failure. -/
def collectAndFulfill (_cfg : Config) (_chain : String) (env : Env)
    (p : DecodedPayment) (o : OrderResponse) (oid : String) :
    Response × List Call :=
  match getContractAddress (p.network.getD "") "usdc" with
  | none => (respCollectFailed, [Call.fetchOrder oid])
  | some addr =>
    let afterCollect := [Call.fetchOrder oid,
      Call.collect (inboundIdempotencyKey oid) addr]
    if env.collectOk then
      match o.serializedTx with
      | some _ =>
        match env.dispatchResult with
        | .error msg =>
          (respFulfillmentFailed msg,
           afterCollect ++ [Call.dispatch (outboundIdempotencyKey oid)])
        | .ok _ =>
          match env.refetchOrder with
          | .error e =>
            (resp500 e,
             afterCollect ++ [Call.dispatch (outboundIdempotencyKey oid), Call.fetchOrder oid])
          | .ok _ =>
            (respFulfilled,
             afterCollect ++ [Call.dispatch (outboundIdempotencyKey oid), Call.fetchOrder oid])
      | none => (respNoFulfillment, afterCollect)
    else
      (respCollectFailed, afterCollect)

/-- The payment-bearing branch (routes/orders.js lines 180-350):
decode the header, fetch the order, recompute the expected amount,
check network and amount, then collect and fulfill. -/
def paymentPhase (cfg : Config) (chain : String) (env : Env)
    (rawHeader : Option RawPayload) : Response × List Call :=
  match decodePaymentHeader rawHeader with
  | .error e => (resp500 e, [])
  | .ok p =>
    match p.extraOrderId with
    | none => (respMissingOrderId, [])
    | some oid =>
      match env.fetchOrder with
      | .error e => (resp500 e, [Call.fetchOrder oid])
      | .ok o =>
        match o.orderId with
        | none => (respNotFound, [Call.fetchOrder oid])
        | some _ =>
          let expected := verifyAmountString (quoteAmountOf o) cfg.feePercent
          if p.network ≠ some chain then
            (respNetworkMismatch, [Call.fetchOrder oid])
          else if p.authorization.value ≠ expected then
            (respAmountMismatch expected p.authorization.value, [Call.fetchOrder oid])
          else
            collectAndFulfill cfg chain env p o oid

/-- The whole `router.post('/')` handler (routes/orders.js lines
70-359) as a pure function: response plus trace of external calls. -/
def handler (cfg : Config) (req : OrderRequest) (env : Env) :
    Response × List Call :=
  let chain := requestChain cfg req
  let currency := requestCurrency req
  if ¬ isSupportedNetwork cfg chain then (respUnsupportedNetwork, [])
  else if ¬ isSupportedCurrency cfg currency then (respUnsupportedCurrency, [])
  else
    match req.header with
    | none => challengePhase cfg chain env
    | some rawHeader => paymentPhase cfg chain env rawHeader

/-! Concrete fixtures used by witnesses and counterexamples. -/

/-- A configuration with base-sepolia, USDC only, 0% fee. -/
def cfgEx : Config :=
  { supportedNetworks := ["base-sepolia"], supportedCurrencies := ["usdc"],
    feePercent := 0, walletAddress := "0xFacilitator" }

/-- A configuration additionally listing `eth` as a supported request
currency. -/
def cfgMulti : Config :=
  { supportedNetworks := ["base-sepolia"], supportedCurrencies := ["usdc", "eth"],
    feePercent := 0, walletAddress := "0xFacilitator" }

/-- A well-formed authorization over 1800000 atomic units. -/
def authEx : RawAuthorization :=
  { fromAddr := "0xUser", toAddr := "0xFacilitator", value := "1800000",
    validAfter := "0", validBefore := "9999999999", nonce := "0xNonce" }

/-- The same authorization with the value off by one atomic unit. -/
def authOffByOne : RawAuthorization :=
  { authEx with value := "1800001" }

/-- A well-formed raw X-PAYMENT payload for order `order1`. -/
def rawEx : RawPayload :=
  { x402Version := some 1, scheme := some "exact", network := some "base-sepolia",
    payload := some { authorization := some authEx, signature := some "0xSig" },
    extraOrderId := some "order1" }

/-- The decoded form of `rawEx`. -/
def pEx : DecodedPayment :=
  { network := some "base-sepolia", authorization := authEx,
    signature := "0xSig", extraOrderId := some "order1" }

/-- `rawEx` with the amount off by one atomic unit. -/
def rawOffByOne : RawPayload :=
  { rawEx with payload := some { authorization := some authOffByOne, signature := some "0xSig" } }

/-- The decoded form of `rawOffByOne`. -/
def pOffByOne : DecodedPayment :=
  { pEx with authorization := authOffByOne }

/-- `rawEx` carrying a different network than the order's. -/
def rawWrongNetwork : RawPayload :=
  { rawEx with network := some "ethereum-sepolia" }

/-- The decoded form of `rawWrongNetwork`. -/
def pWrongNetwork : DecodedPayment :=
  { pEx with network := some "ethereum-sepolia" }

/-- `rawEx` with x402Version 2: `decodePaymentHeader` throws on it. -/
def rawBadVersion : RawPayload :=
  { rawEx with x402Version := some 2 }

/-- An order response quoted at 1.80 with a prepared settlement
transaction. -/
def orderEx : OrderResponse :=
  { orderId := some "order1", quote := some { totalPriceAmount := some (9/5) },
    serializedTx := some "0xPreparedTx" }

/-- An order response with no `quote.totalPrice.amount`. -/
def orderNoQuote : OrderResponse :=
  { orderId := some "order1", quote := none, serializedTx := some "0xPreparedTx" }

/-- A payment-bearing request for base-sepolia/USDC carrying `raw`. -/
def reqOf (raw : RawPayload) : OrderRequest :=
  { payment := some { method := "base-sepolia", currency := "usdc" },
    header := some (some raw) }

/-- A challenge-phase request (no X-PAYMENT header) asking to pay in
`eth` on base-sepolia. -/
def reqChallengeEth : OrderRequest :=
  { payment := some { method := "base-sepolia", currency := "eth" }, header := none }

/-- An environment: order fetch yields `o`, collection and dispatch
results as given. -/
def envOf (o : OrderResponse) (collectOk : Bool) (dispatch : Except String Unit) : Env :=
  { createOrder := .ok (some o), fetchOrder := .ok o, collectOk := collectOk,
    dispatchResult := dispatch, refetchOrder := .ok o }

/-- The base-sepolia USDC contract address of the registry. -/
def usdcBaseSepolia : String := "0x036cbd53842c5426634e7929541ec2318f3dcf7e"

/-- `rawEx` with no `extra.orderId`. -/
def rawNoOid : RawPayload :=
  { rawEx with extraOrderId := none }

/-- The decoded form of `rawNoOid`. -/
def pNoOid : DecodedPayment :=
  { pEx with extraOrderId := none }

/-! Helper lemmas: concrete amount evaluations and control-flow
reductions of the handler. -/

theorem verifyAtomic_quote95_fee5 : verifyAtomicUnits (some (9/5)) 5 = 1890000 := by
  norm_num [verifyAtomicUnits, baseAmountOf, roundTo6, qfloor]
  decide

theorem verifyAmount_quote95_fee5 : verifyAmountString (some (9/5)) 5 = "1890000" := by
  rw [verifyAmountString, verifyAtomic_quote95_fee5]
  decide

theorem verifyAtomic_quote95_fee0 : verifyAtomicUnits (some (9/5)) 0 = 1800000 := by
  norm_num [verifyAtomicUnits, baseAmountOf, roundTo6, qfloor]
  decide

theorem verifyAmount_quote95_fee0 : verifyAmountString (some (9/5)) 0 = "1800000" := by
  rw [verifyAmountString, verifyAtomic_quote95_fee0]
  decide

theorem verifyAtomic_noquote_fee0 : verifyAtomicUnits none 0 = 1800000 := by
  norm_num [verifyAtomicUnits, baseAmountOf, roundTo6, qfloor]
  decide

theorem verifyAmount_noquote_fee0 : verifyAmountString none 0 = "1800000" := by
  rw [verifyAmountString, verifyAtomic_noquote_fee0]
  decide

theorem handler_to_paymentPhase (cfg : Config) (req : OrderRequest) (env : Env)
    (raw : Option RawPayload)
    (hnet : isSupportedNetwork cfg (requestChain cfg req) = true)
    (hcur : isSupportedCurrency cfg (requestCurrency req) = true)
    (hheader : req.header = some raw) :
    handler cfg req env = paymentPhase cfg (requestChain cfg req) env raw := by
  simp [handler, hnet, hcur, hheader]

theorem paymentPhase_to_collect (cfg : Config) (chain : String) (env : Env)
    (raw : Option RawPayload) (p : DecodedPayment) (oid ox : String)
    (o : OrderResponse)
    (hdec : decodePaymentHeader raw = .ok p)
    (hoid : p.extraOrderId = some oid)
    (hfetch : env.fetchOrder = .ok o)
    (hfound : o.orderId = some ox)
    (hnetwork : p.network = some chain)
    (hamount : p.authorization.value = verifyAmountString (quoteAmountOf o) cfg.feePercent) :
    paymentPhase cfg chain env raw = collectAndFulfill cfg chain env p o oid := by
  simp [paymentPhase, hdec, hoid, hfetch, hfound, hnetwork, hamount]

theorem collect_mem_collectAndFulfill (cfg : Config) (chain : String) (env : Env)
    (p : DecodedPayment) (o : OrderResponse) (oid addr : String)
    (haddr : getContractAddress (p.network.getD "") "usdc" = some addr) :
    Call.collect (inboundIdempotencyKey oid) addr ∈ (collectAndFulfill cfg chain env p o oid).2 := by
  rw [collectAndFulfill, haddr]
  cases env.collectOk <;> cases htx : o.serializedTx <;>
    cases hdr : env.dispatchResult <;> cases hrf : env.refetchOrder <;> simp

theorem collectAndFulfill_status (cfg : Config) (chain : String) (env : Env)
    (p : DecodedPayment) (o : OrderResponse) (oid : String) :
    (collectAndFulfill cfg chain env p o oid).1.status = 200
    ∨ (collectAndFulfill cfg chain env p o oid).1.status = 422
    ∨ (collectAndFulfill cfg chain env p o oid).1.status = 500 := by
  rw [collectAndFulfill]
  cases getContractAddress (p.network.getD "") "usdc" <;>
    cases env.collectOk <;> cases o.serializedTx <;>
    cases env.dispatchResult <;> cases env.refetchOrder <;>
    simp [respCollectFailed, respFulfillmentFailed, respFulfilled, respNoFulfillment, resp500]

/-- Claim C1: when fund collection succeeds and the subsequent
fulfillment dispatch fails, the handler answers 422 with a body saying
both that the payment was received and that fulfillment failed, makes
no refund or reversal call, and does not answer with a plain 200. -/
theorem collected_then_dispatch_failed_is_422
    (cfg : Config) (req : OrderRequest) (env : Env)
    (raw : Option RawPayload) (p : DecodedPayment)
    (oid ox tx addr msg : String) (o : OrderResponse)
    (hnet : isSupportedNetwork cfg (requestChain cfg req) = true)
    (hcur : isSupportedCurrency cfg (requestCurrency req) = true)
    (hheader : req.header = some raw)
    (hdec : decodePaymentHeader raw = .ok p)
    (hoid : p.extraOrderId = some oid)
    (hfetch : env.fetchOrder = .ok o)
    (hfound : o.orderId = some ox)
    (hnetwork : p.network = some (requestChain cfg req))
    (hamount : p.authorization.value = verifyAmountString (quoteAmountOf o) cfg.feePercent)
    (haddr : getContractAddress (requestChain cfg req) "usdc" = some addr)
    (hcollect : env.collectOk = true)
    (htx : o.serializedTx = some tx)
    (hdisp : env.dispatchResult = .error msg) :
    (handler cfg req env).1.status = 422
    ∧ (handler cfg req env).1.error = some "Payment received but fulfillment failed"
    ∧ (handler cfg req env).1.message =
        some "Your payment was received but order fulfillment failed. Please contact support."
    ∧ (handler cfg req env).1.status ≠ 200
    ∧ ∀ s, Call.refund s ∉ (handler cfg req env).2 := by
  rw [handler_to_paymentPhase cfg req env raw hnet hcur hheader,
      paymentPhase_to_collect cfg _ env raw p oid ox o hdec hoid hfetch hfound hnetwork hamount]
  simp [collectAndFulfill, hnetwork, haddr, hcollect, htx, hdisp, respFulfillmentFailed]

/-- Witness for C1 at a concrete request: quoted price 1.80, fee 0,
matching value, collection succeeds, dispatch throws. -/
theorem collected_then_dispatch_failed_is_422_witness :
    (handler cfgEx (reqOf rawEx) (envOf orderEx true (.error "dispatch reverted"))).1.status = 422
    ∧ ∀ s, Call.refund s ∉
        (handler cfgEx (reqOf rawEx) (envOf orderEx true (.error "dispatch reverted"))).2 := by
  have h := collected_then_dispatch_failed_is_422 cfgEx (reqOf rawEx)
    (envOf orderEx true (.error "dispatch reverted")) (some rawEx) pEx
    "order1" "order1" "0xPreparedTx" usdcBaseSepolia "dispatch reverted" orderEx
    (by decide) (by decide) rfl rfl rfl rfl rfl rfl
    verifyAmount_quote95_fee0.symm (by decide) rfl rfl rfl
  exact ⟨h.1, h.2.2.2.2⟩

/-- Claim C2: a submitted `authorization.value` differing as a string
from the expected atomic amount (recomputed from the current quote and
fee) is rejected with a 400 payment-amount-mismatch before any fund
movement. -/
theorem amount_string_mismatch_rejected
    (cfg : Config) (req : OrderRequest) (env : Env)
    (raw : Option RawPayload) (p : DecodedPayment) (oid ox : String)
    (o : OrderResponse)
    (hnet : isSupportedNetwork cfg (requestChain cfg req) = true)
    (hcur : isSupportedCurrency cfg (requestCurrency req) = true)
    (hheader : req.header = some raw)
    (hdec : decodePaymentHeader raw = .ok p)
    (hoid : p.extraOrderId = some oid)
    (hfetch : env.fetchOrder = .ok o)
    (hfound : o.orderId = some ox)
    (hnetwork : p.network = some (requestChain cfg req))
    (hmm : p.authorization.value ≠ verifyAmountString (quoteAmountOf o) cfg.feePercent) :
    (handler cfg req env).1 =
      respAmountMismatch (verifyAmountString (quoteAmountOf o) cfg.feePercent) p.authorization.value
    ∧ (handler cfg req env).1.status = 400
    ∧ (handler cfg req env).1.error = some "Payment amount mismatch"
    ∧ (handler cfg req env).2 = [Call.fetchOrder oid]
    ∧ ∀ k a, Call.collect k a ∉ (handler cfg req env).2 := by
  rw [handler_to_paymentPhase cfg req env raw hnet hcur hheader]
  simp [paymentPhase, hdec, hoid, hfetch, hfound, hnetwork, hmm, respAmountMismatch]

/-- Witness for C2: a value off by one atomic unit ("1800001" against
expected "1800000") is rejected with 400 and no collection call. -/
theorem amount_string_mismatch_rejected_witness :
    (handler cfgEx (reqOf rawOffByOne) (envOf orderEx true (.ok ()))).1.status = 400
    ∧ ∀ k a, Call.collect k a ∉
        (handler cfgEx (reqOf rawOffByOne) (envOf orderEx true (.ok ()))).2 := by
  have h := amount_string_mismatch_rejected cfgEx (reqOf rawOffByOne)
    (envOf orderEx true (.ok ())) (some rawOffByOne) pOffByOne "order1" "order1" orderEx
    (by decide) (by decide) rfl rfl rfl rfl rfl rfl
    (by rw [show verifyAmountString (quoteAmountOf orderEx) cfgEx.feePercent = "1800000"
              from verifyAmount_quote95_fee0]
        decide)
  exact ⟨h.2.1, h.2.2.2.2⟩

/-- Claim C3: for every fee percentage in [0,100) and every base price
(any quoted amount, including the absent-quote default), the atomic
amount computed when building the 402 challenge equals the atomic
amount recomputed during verification, both as integers and as the
decimal strings compared at verification time. -/
theorem challenge_verify_amounts_agree (q : Option ℚ) (f : ℚ)
    (h0 : 0 ≤ f) (h1 : f < 100) :
    challengeAtomicUnits q f = verifyAtomicUnits q f
    ∧ challengeAmountString q f = verifyAmountString q f :=
  ⟨rfl, rfl⟩

/-- Witness for C3 at fee 5 and base price 1.80. -/
theorem challenge_verify_amounts_agree_witness :
    ((0:ℚ) ≤ 5 ∧ (5:ℚ) < 100)
    ∧ challengeAmountString (some (9/5)) 5 = verifyAmountString (some (9/5)) 5 :=
  ⟨⟨by norm_num, by norm_num⟩,
   (challenge_verify_amounts_agree (some (9/5)) 5 (by norm_num) (by norm_num)).2⟩

/-- Counterexample to C4 as stated: a payment-bearing request whose
X-PAYMENT header fails decoding (`x402Version` is 2) is answered with
HTTP 500 — the decode error is thrown and lands in the outer catch —
not with the claimed HTTP 400. -/
theorem decode_failure_is_500_not_400 :
    (handler cfgEx (reqOf rawBadVersion) (envOf orderEx true (.ok ()))).1.status = 500
    ∧ (handler cfgEx (reqOf rawBadVersion) (envOf orderEx true (.ok ()))).1.status ≠ 400 := by
  decide

/-- Claim C4 (amended): decode-stage verification failures (malformed
base64/JSON, wrong x402Version, wrong scheme, missing authorization or
signature) are answered with HTTP 500 via the outer catch; the
post-decode verification failures — missing orderId, network mismatch,
amount mismatch — are answered with HTTP 400. -/
theorem verification_failure_statuses
    (cfg : Config) (req : OrderRequest) (env : Env) (raw : Option RawPayload)
    (hnet : isSupportedNetwork cfg (requestChain cfg req) = true)
    (hcur : isSupportedCurrency cfg (requestCurrency req) = true)
    (hheader : req.header = some raw) :
    (∀ e, decodePaymentHeader raw = .error e → (handler cfg req env).1.status = 500)
    ∧ (∀ p, decodePaymentHeader raw = .ok p → p.extraOrderId = none →
        (handler cfg req env).1 = respMissingOrderId ∧ (handler cfg req env).1.status = 400)
    ∧ (∀ p oid o ox, decodePaymentHeader raw = .ok p → p.extraOrderId = some oid →
        env.fetchOrder = .ok o → o.orderId = some ox →
        p.network ≠ some (requestChain cfg req) →
        (handler cfg req env).1 = respNetworkMismatch ∧ (handler cfg req env).1.status = 400)
    ∧ (∀ p oid o ox, decodePaymentHeader raw = .ok p → p.extraOrderId = some oid →
        env.fetchOrder = .ok o → o.orderId = some ox →
        p.network = some (requestChain cfg req) →
        p.authorization.value ≠ verifyAmountString (quoteAmountOf o) cfg.feePercent →
        (handler cfg req env).1.status = 400) := by
  rw [handler_to_paymentPhase cfg req env raw hnet hcur hheader]
  refine ⟨?_, ?_, ?_, ?_⟩
  · intro e he
    simp [paymentPhase, he, resp500]
  · intro p hp hoid
    simp [paymentPhase, hp, hoid, respMissingOrderId]
  · intro p oid o ox hp hoid hf hfo hne
    simp [paymentPhase, hp, hoid, hf, hfo, hne, respNetworkMismatch]
  · intro p oid o ox hp hoid hf hfo heq hmm
    simp [paymentPhase, hp, hoid, hf, hfo, heq, hmm, respAmountMismatch]

/-- Witness for the amended C4: a missing orderId is answered 400, and
a decode failure is answered 500. -/
theorem verification_failure_statuses_witness :
    (handler cfgEx (reqOf rawNoOid) (envOf orderEx true (.ok ()))).1.status = 400
    ∧ (handler cfgEx (reqOf rawNoOid) (envOf orderEx true (.ok ()))).1 = respMissingOrderId := by
  have h := verification_failure_statuses cfgEx (reqOf rawNoOid)
    (envOf orderEx true (.ok ())) (some rawNoOid) (by decide) (by decide) rfl
  have h2 := h.2.1 pNoOid rfl rfl
  exact ⟨h2.2, h2.1⟩

/-- Claim C5 (evaluating the signature-v normalisation at the failing
input): the code keeps any parsed v that is at least 27 unchanged, so
the chain-adjusted v = 37 (chainId 1: 2*1+35) is forwarded as 37, not
normalised into the set containing 27 and 28, contradicting the code's
own comments; raw v of 0, 1 and already-normalised 27, 28 do map into
that set. -/
theorem normalizeV_keeps_chain_adjusted :
    normalizeV 37 = 37 ∧ normalizeV 37 ≠ 27 ∧ normalizeV 37 ≠ 28
    ∧ normalizeV 0 = 27 ∧ normalizeV 1 = 28
    ∧ normalizeV 27 = 27 ∧ normalizeV 28 = 28 := by
  decide

/-- Claim C6: a payload whose network differs from the order's chain is
rejected with a 400 network-mismatch and fund collection is never
attempted. -/
theorem network_mismatch_rejected
    (cfg : Config) (req : OrderRequest) (env : Env)
    (raw : Option RawPayload) (p : DecodedPayment) (oid ox : String)
    (o : OrderResponse)
    (hnet : isSupportedNetwork cfg (requestChain cfg req) = true)
    (hcur : isSupportedCurrency cfg (requestCurrency req) = true)
    (hheader : req.header = some raw)
    (hdec : decodePaymentHeader raw = .ok p)
    (hoid : p.extraOrderId = some oid)
    (hfetch : env.fetchOrder = .ok o)
    (hfound : o.orderId = some ox)
    (hne : p.network ≠ some (requestChain cfg req)) :
    (handler cfg req env).1 = respNetworkMismatch
    ∧ (handler cfg req env).1.status = 400
    ∧ (handler cfg req env).1.error = some "Payment network mismatch"
    ∧ (handler cfg req env).2 = [Call.fetchOrder oid]
    ∧ ∀ k a, Call.collect k a ∉ (handler cfg req env).2 := by
  rw [handler_to_paymentPhase cfg req env raw hnet hcur hheader]
  simp [paymentPhase, hdec, hoid, hfetch, hfound, hne, respNetworkMismatch]

/-- Witness for C6: payload network ethereum-sepolia against chain
base-sepolia. -/
theorem network_mismatch_rejected_witness :
    (handler cfgEx (reqOf rawWrongNetwork) (envOf orderEx true (.ok ()))).1.status = 400
    ∧ ∀ k a, Call.collect k a ∉
        (handler cfgEx (reqOf rawWrongNetwork) (envOf orderEx true (.ok ()))).2 := by
  have h := network_mismatch_rejected cfgEx (reqOf rawWrongNetwork)
    (envOf orderEx true (.ok ())) (some rawWrongNetwork) pWrongNetwork
    "order1" "order1" orderEx
    (by decide) (by decide) rfl rfl rfl rfl rfl (by decide)
  exact ⟨h.2.1, h.2.2.2.2⟩

/-- Claim C7: on a run in which both phases execute, fund collection is
submitted under idempotency key `orderId ++ "-inbound"` and fulfillment
dispatch under `orderId` itself; the two keys differ for every order
id, and each is a function of the order id alone. -/
theorem idempotency_keys_per_phase
    (cfg : Config) (req : OrderRequest) (env : Env)
    (raw : Option RawPayload) (p : DecodedPayment)
    (oid ox tx addr : String) (o : OrderResponse)
    (hnet : isSupportedNetwork cfg (requestChain cfg req) = true)
    (hcur : isSupportedCurrency cfg (requestCurrency req) = true)
    (hheader : req.header = some raw)
    (hdec : decodePaymentHeader raw = .ok p)
    (hoid : p.extraOrderId = some oid)
    (hfetch : env.fetchOrder = .ok o)
    (hfound : o.orderId = some ox)
    (hnetwork : p.network = some (requestChain cfg req))
    (hamount : p.authorization.value = verifyAmountString (quoteAmountOf o) cfg.feePercent)
    (haddr : getContractAddress (requestChain cfg req) "usdc" = some addr)
    (hcollect : env.collectOk = true)
    (htx : o.serializedTx = some tx)
    (hdisp : env.dispatchResult = .ok ()) :
    (handler cfg req env).2 =
      [Call.fetchOrder oid, Call.collect (inboundIdempotencyKey oid) addr,
       Call.dispatch (outboundIdempotencyKey oid), Call.fetchOrder oid]
    ∧ inboundIdempotencyKey oid = oid ++ "-inbound"
    ∧ outboundIdempotencyKey oid = oid
    ∧ inboundIdempotencyKey oid ≠ outboundIdempotencyKey oid := by
  rw [handler_to_paymentPhase cfg req env raw hnet hcur hheader,
      paymentPhase_to_collect cfg _ env raw p oid ox o hdec hoid hfetch hfound hnetwork hamount]
  refine ⟨?_, rfl, rfl, ?_⟩
  · cases hrf : env.refetchOrder <;>
      simp [collectAndFulfill, hnetwork, haddr, hcollect, htx, hdisp, hrf]
  · intro hkey
    have hlen := congrArg String.length hkey
    rw [inboundIdempotencyKey, outboundIdempotencyKey, String.length_append,
        show ("-inbound" : String).length = 8 from rfl] at hlen
    omega

/-- Witness for C7 on a full-success run for order `order1`. -/
theorem idempotency_keys_per_phase_witness :
    (handler cfgEx (reqOf rawEx) (envOf orderEx true (.ok ()))).2 =
      [Call.fetchOrder "order1",
       Call.collect (inboundIdempotencyKey "order1") usdcBaseSepolia,
       Call.dispatch (outboundIdempotencyKey "order1"), Call.fetchOrder "order1"]
    ∧ inboundIdempotencyKey "order1" ≠ outboundIdempotencyKey "order1" := by
  have h := idempotency_keys_per_phase cfgEx (reqOf rawEx)
    (envOf orderEx true (.ok ())) (some rawEx) pEx
    "order1" "order1" "0xPreparedTx" usdcBaseSepolia orderEx
    (by decide) (by decide) rfl rfl rfl rfl rfl rfl
    verifyAmount_quote95_fee0.symm (by decide) rfl rfl rfl
  exact ⟨h.1, h.2.2.2⟩

/-- Claim C8: the challenge amount is computed by first rounding
base*(1+fee/100) to 6 decimal places and then flooring the result
times 10^6 (for fee 5, base 1.80: the rounded total is 1.89 and the
floor of 1.89 * 10^6 is the atomic amount); at fee 0 and base 1.80 the
maxAmountRequired string is "1800000", at fee 5 it is "1890000". -/
theorem challenge_amount_round_then_floor :
    roundTo6 ((9/5 : ℚ) * (1 + 5/100)) = 189/100
    ∧ challengeAtomicUnits (some (9/5)) 5 = qfloor ((189/100 : ℚ) * 1000000)
    ∧ challengeAmountString (some (9/5)) 0 = "1800000"
    ∧ challengeAmountString (some (9/5)) 5 = "1890000" := by
  refine ⟨?_, ?_, verifyAmount_quote95_fee0, verifyAmount_quote95_fee5⟩
  · rw [roundTo6]
    norm_num [qfloor]
    rw [show Int.fdiv 3780001 2 = 1890000 from by decide]
    norm_num
  · rw [show challengeAtomicUnits (some (9/5)) 5 = 1890000 from verifyAtomic_quote95_fee5]
    norm_num [qfloor]

/-- Claim C9: when the fetched order has no quote.totalPrice.amount,
verification does not fail: the expected amount falls back to the
default base price 1.80, so at 0% fee a payload whose value is
"1800000" passes the amount check and proceeds to fund collection. -/
theorem missing_quote_uses_default_price
    (cfg : Config) (req : OrderRequest) (env : Env)
    (raw : Option RawPayload) (p : DecodedPayment) (oid ox addr : String)
    (o : OrderResponse)
    (hnet : isSupportedNetwork cfg (requestChain cfg req) = true)
    (hcur : isSupportedCurrency cfg (requestCurrency req) = true)
    (hheader : req.header = some raw)
    (hdec : decodePaymentHeader raw = .ok p)
    (hoid : p.extraOrderId = some oid)
    (hfetch : env.fetchOrder = .ok o)
    (hfound : o.orderId = some ox)
    (hq : quoteAmountOf o = none)
    (hfee : cfg.feePercent = 0)
    (hnetwork : p.network = some (requestChain cfg req))
    (hvalue : p.authorization.value = "1800000")
    (haddr : getContractAddress (requestChain cfg req) "usdc" = some addr) :
    baseAmountOf (quoteAmountOf o) = 9/5
    ∧ verifyAmountString (quoteAmountOf o) cfg.feePercent = "1800000"
    ∧ handler cfg req env = collectAndFulfill cfg (requestChain cfg req) env p o oid
    ∧ Call.collect (inboundIdempotencyKey oid) addr ∈ (handler cfg req env).2
    ∧ ((handler cfg req env).1.status = 200 ∨ (handler cfg req env).1.status = 422
       ∨ (handler cfg req env).1.status = 500) := by
  have hexp : verifyAmountString (quoteAmountOf o) cfg.feePercent = "1800000" := by
    rw [hq, hfee]
    exact verifyAmount_noquote_fee0
  have hred : handler cfg req env = collectAndFulfill cfg (requestChain cfg req) env p o oid := by
    rw [handler_to_paymentPhase cfg req env raw hnet hcur hheader,
        paymentPhase_to_collect cfg _ env raw p oid ox o hdec hoid hfetch hfound hnetwork
          (by rw [hvalue, hexp])]
  refine ⟨by rw [hq]; rfl, hexp, hred, ?_, ?_⟩
  · rw [hred]
    exact collect_mem_collectAndFulfill _ _ env p o oid addr (by simp [hnetwork, haddr])
  · rw [hred]
    exact collectAndFulfill_status _ _ env p o oid

/-- Witness for C9: order with no quote, fee 0, value "1800000":
verification accepts it and the collection call is in the trace. -/
theorem missing_quote_uses_default_price_witness :
    verifyAmountString (quoteAmountOf orderNoQuote) cfgEx.feePercent = "1800000"
    ∧ Call.collect (inboundIdempotencyKey "order1") usdcBaseSepolia ∈
        (handler cfgEx (reqOf rawEx) (envOf orderNoQuote true (.ok ()))).2 := by
  have h := missing_quote_uses_default_price cfgEx (reqOf rawEx)
    (envOf orderNoQuote true (.ok ())) (some rawEx) pEx
    "order1" "order1" usdcBaseSepolia orderNoQuote
    (by decide) (by decide) rfl rfl rfl rfl rfl rfl rfl rfl rfl (by decide)
  exact ⟨h.2.1, h.2.2.2.1⟩

/-- Claim C10: the token contract in the 402 challenge's asset field
and the contract used for fund collection are both resolved with the
currency pinned to "usdc", whatever currency the request body carries:
under any supported request currency the challenge asset is the
chain's USDC contract and collection is submitted against the same
USDC contract. -/
theorem asset_resolution_pins_usdc
    (cfg : Config) (req : OrderRequest) (env : Env) (addr : String)
    (hnet : isSupportedNetwork cfg (requestChain cfg req) = true)
    (hcur : isSupportedCurrency cfg (requestCurrency req) = true)
    (haddr : getContractAddress (requestChain cfg req) "usdc" = some addr) :
    (∀ o, req.header = none → env.createOrder = .ok (some o) →
      (handler cfg req env).1.asset = some addr)
    ∧ (∀ raw p oid ox o, req.header = some raw → decodePaymentHeader raw = .ok p →
        p.extraOrderId = some oid → env.fetchOrder = .ok o → o.orderId = some ox →
        p.network = some (requestChain cfg req) →
        p.authorization.value = verifyAmountString (quoteAmountOf o) cfg.feePercent →
        Call.collect (inboundIdempotencyKey oid) addr ∈ (handler cfg req env).2) := by
  constructor
  · intro o hh hc
    simp [handler, hnet, hcur, hh, challengePhase, hc, haddr, respChallenge]
  · intro raw p oid ox o hh hdec hoid hf hfo hnetwork hamount
    rw [handler_to_paymentPhase cfg req env raw hnet hcur hh,
        paymentPhase_to_collect cfg _ env raw p oid ox o hdec hoid hf hfo hnetwork hamount]
    exact collect_mem_collectAndFulfill _ _ env p o oid addr (by simp [hnetwork, haddr])

/-- Witness for C10: a challenge request asking to pay in eth still
gets the base-sepolia USDC contract as the challenge asset. -/
theorem asset_resolution_pins_usdc_witness :
    (handler cfgMulti reqChallengeEth (envOf orderEx true (.ok ()))).1.asset
      = some usdcBaseSepolia := by
  exact (asset_resolution_pins_usdc cfgMulti reqChallengeEth
    (envOf orderEx true (.ok ())) usdcBaseSepolia
    (by decide) (by decide) (by decide)).1 orderEx rfl rfl
